import Mathlib

/-!
Verification development for the JaacksApp construction-tracker
(`src/JaacksAppCloud.py`, a single-file Streamlit application).

The shallow embedding below translates the computational parts of the
source into Lean:

* tabular rows held in pandas DataFrames become Lean structures and
  `List`s of those structures;
* money, hours and tax rates become `ℚ` (the source works with Python
  floats; none of the verified properties depend on floating-point
  rounding);
* clock times from `st.time_input` become minutes since midnight
  (`Nat`); the source compares `datetime.time` values, which is the
  same order;
* form-submission handlers become pure functions from the submitted
  form values and the current table snapshot to the new table
  snapshot.

Definitions keep the variable names of the source where Lean allows
it (for example `final_subtotal_ig`, `df_wip_kpis`,
`actual_hours_wip_kpi`, `next_doc_num`).
-/

namespace JaacksApp

/-! ## String primitives of the source

Python string operations used by the embedded code, implemented by
structural recursion over the character list so that concrete inputs
evaluate inside proofs.
-/

/-- Python `str.strip()` with no arguments: remove leading and
trailing whitespace. -/
def py_strip (s : String) : String :=
  String.mk
    (((s.data.dropWhile Char.isWhitespace).reverse.dropWhile
        Char.isWhitespace).reverse)

/-- Replace every occurrence of `pat` in the list, scanning left to
right.  The fuel argument (instantiated with the list length, an
upper bound on the number of steps) keeps the recursion structural. -/
def py_replace_core (pat repl : List Char) : Nat → List Char → List Char
  | _, [] => []
  | 0, l => l
  | fuel + 1, c :: cs =>
    if pat.isPrefixOf (c :: cs) then
      repl ++ py_replace_core pat repl fuel (cs.drop (pat.length - 1))
    else c :: py_replace_core pat repl fuel cs

/-- Python `s.replace(pat, repl)`: every occurrence replaced. -/
def py_replace (s pat repl : String) : String :=
  String.mk (py_replace_core pat.data repl.data s.data.length s.data)

/-- Read a digit run as a number; `none` on any non-digit. -/
def digits_to_nat_core : Nat → List Char → Option Nat
  | acc, [] => some acc
  | acc, c :: cs =>
    if c.isDigit then digits_to_nat_core (acc * 10 + (c.toNat - 48)) cs
    else none

/-- Integer parse of a string: an optional minus sign followed by
digits, `none` otherwise.  This is `pd.to_numeric(..., errors='coerce')`
restricted to integers, which is what issued document numbers are;
any other string is coerced to NaN and dropped, modelled by `none`. -/
def str_to_int (s : String) : Option Int :=
  match s.data with
  | [] => none
  | '-' :: rest =>
    match rest with
    | [] => none
    | _ => (digits_to_nat_core 0 rest).map (fun n => -(n : Int))
  | l => (digits_to_nat_core 0 l).map (fun n => (n : Int))

/-- A row of the `jobs` worksheet (columns from the `jobs` entry of
`sheet_columns`; the date, address and free-text columns that no
verified computation reads are kept as plain strings). -/
structure Job where
  jobName : String
  client : String
  status : String
  startDate : String
  endDate : String
  jobDesc : String
  estimatedHours : ℚ
  estimatedMaterialsCost : ℚ
  uniqueID : String
  deriving Repr, DecidableEq

/-- A row of the `job_time` worksheet.  `startTime`/`endTime` are the
stored clock times in minutes since midnight (the source stores the
strings produced by `strftime` of the submitted `datetime.time`
values). -/
structure TimeEntry where
  contractor : String
  client : String
  job : String
  date : String
  startTime : Nat
  endTime : Nat
  timeDurationHours : ℚ
  uniqueID : String
  jobUniqueID : String
  deriving Repr, DecidableEq

/-- A row of the `materials` worksheet. -/
structure MaterialUsage where
  material : String
  contractor : String
  client : String
  job : String
  dateUsed : String
  amount : ℚ
  payor : String
  uniqueID : String
  jobUniqueID : String
  deriving Repr, DecidableEq

/-- A row of the `receipts` worksheet. -/
structure Receipt where
  contractorName : String
  clientName : String
  jobName : String
  payor : String
  amount : ℚ
  fileName : String
  filePath : String
  uploadDate : String
  uniqueID : String
  jobUniqueID : String
  deriving Repr, DecidableEq

/-- A row of the `down_payments` worksheet. -/
structure DownPayment where
  downPaymentID : String
  jobUniqueID : String
  dateReceived : String
  amount : ℚ
  paymentMethod : String
  notes : String
  deriving Repr, DecidableEq

/-- A row of the `job_files` worksheet. -/
structure JobFile where
  fileID : String
  jobUniqueID : String
  fileName : String
  relativePath : String
  category : String
  uploadDate : String
  uploadedByUsername : String
  deriving Repr, DecidableEq

/-- An invoice or estimate line item as kept in
`st.session_state.invoice_line_items`: a dict with keys
`description`, `quantity`, `unit_price`, `total`, `source`. -/
structure LineItem where
  desc : String
  quantity : ℚ
  unit_price : ℚ
  total : ℚ
  src : String
  deriving Repr, DecidableEq

/-! ## Domain aggregation (Invoice Generation auto items, lines 1567-1573)

The source computes, for the selected job with unique id `uid`:
`job_time_df[job_time_df['JobUniqueID'] == uid]['Time Duration (Hours)'].sum()`
and
`materials_df[materials_df['JobUniqueID'] == uid]['Amount'].sum()
 + receipts_df[receipts_df['JobUniqueID'] == uid]['Amount'].sum()`.
-/

/-- Actual hours for one job: the sum of `Time Duration (Hours)` over
the `job_time` rows whose `JobUniqueID` equals `uid`. -/
def actual_hours_for (uid : String) (job_time : List TimeEntry) : ℚ :=
  ((job_time.filter (fun e => e.jobUniqueID == uid)).map
    (fun e => e.timeDurationHours)).sum

/-- Actual material cost for one job: material `Amount` sum plus
receipt `Amount` sum, both restricted to `JobUniqueID == uid`
(`m_cost + r_cost` in the source). -/
def actual_material_cost_for (uid : String) (materials : List MaterialUsage)
    (receipts : List Receipt) : ℚ :=
  ((materials.filter (fun m => m.jobUniqueID == uid)).map
    (fun m => m.amount)).sum +
  ((receipts.filter (fun r => r.jobUniqueID == uid)).map
    (fun r => r.amount)).sum

/-! ## Dashboard WIP KPIs (lines 721-738)

The dashboard restricts the (already client/job filtered) jobs table
to rows with `Status == In Progress`, sums the estimate columns over
that subset, collects the stripped unique ids of the subset, and sums
the child tables over rows whose `JobUniqueID` is in that id list.
-/

/-- Pandas `unique` on a column: first occurrence of every value, in
order of first appearance. -/
def unique_first : List String → List String
  | [] => []
  | a :: t => a :: unique_first (t.filter (fun b => b != a))
termination_by l => l.length
decreasing_by
  simp_wf
  exact Nat.lt_succ_of_le (List.length_filter_le _ _)

/-- `df_wip_kpis = kpi_df_filtered[kpi_df_filtered['Status'] == 'In Progress']`. -/
def df_wip_kpis (jobs : List Job) : List Job :=
  jobs.filter (fun j => j.status == "In Progress")

/-- `est_hours_wip_kpi`: sum of `Estimated Hours` over the WIP subset
(0.0 when the subset is empty). -/
def est_hours_wip_kpi (jobs : List Job) : ℚ :=
  if (df_wip_kpis jobs).isEmpty then 0
  else ((df_wip_kpis jobs).map (fun j => j.estimatedHours)).sum

/-- `est_materials_wip_kpi`: sum of `Estimated Materials Cost` over the
WIP subset (0.0 when the subset is empty). -/
def est_materials_wip_kpi (jobs : List Job) : ℚ :=
  if (df_wip_kpis jobs).isEmpty then 0
  else ((df_wip_kpis jobs).map (fun j => j.estimatedMaterialsCost)).sum

/-- `wip_job_uids_kpi`: stripped unique ids of the WIP jobs. -/
def wip_job_uids_kpi (jobs : List Job) : List String :=
  unique_first ((df_wip_kpis jobs).map (fun j => py_strip j.uniqueID))

/-- `actual_hours_wip_kpi`: sum of durations over `job_time` rows whose
`JobUniqueID` is one of the WIP job ids (0.0 when either the time
table or the id list is empty, per the guarding `if`). -/
def actual_hours_wip_kpi (jobs : List Job) (job_time : List TimeEntry) : ℚ :=
  if job_time.isEmpty || (wip_job_uids_kpi jobs).isEmpty then 0
  else ((job_time.filter
          (fun e => (wip_job_uids_kpi jobs).contains e.jobUniqueID)).map
          (fun e => e.timeDurationHours)).sum

/-- `total_actual_materials_wip_kpi`: material amounts plus receipt
amounts over rows whose `JobUniqueID` is one of the WIP job ids. -/
def total_actual_materials_wip_kpi (jobs : List Job)
    (materials : List MaterialUsage) (receipts : List Receipt) : ℚ :=
  if (wip_job_uids_kpi jobs).isEmpty then 0
  else
    (if materials.isEmpty then 0
     else ((materials.filter
             (fun m => (wip_job_uids_kpi jobs).contains m.jobUniqueID)).map
             (fun m => m.amount)).sum) +
    (if receipts.isEmpty then 0
     else ((receipts.filter
             (fun r => (wip_job_uids_kpi jobs).contains r.jobUniqueID)).map
             (fun r => r.amount)).sum)

/-- `total_down_payments_wip_kpi`: down-payment amounts over rows whose
`JobUniqueID` is one of the WIP job ids. -/
def total_down_payments_wip_kpi (jobs : List Job)
    (down_payments : List DownPayment) : ℚ :=
  if down_payments.isEmpty || (wip_job_uids_kpi jobs).isEmpty then 0
  else ((down_payments.filter
          (fun d => (wip_job_uids_kpi jobs).contains d.jobUniqueID)).map
          (fun d => d.amount)).sum

/-! ## Job deletion cascade (Job Details section, lines 987-997) -/

/-- The seven persisted tables touched by the deletion handler. -/
structure Tables where
  jobs : List Job
  job_time : List TimeEntry
  materials : List MaterialUsage
  receipts : List Receipt
  down_payments : List DownPayment
  job_files : List JobFile
  deriving Repr, DecidableEq

/-- The confirm-deletion handler: every child table keeps the rows
with `JobUniqueID != job_uid`, and the jobs table keeps the rows with
`UniqueID != job_uid`; all six filtered tables are then saved. -/
def delete_job_cascade (job_uid : String) (t : Tables) : Tables :=
  { jobs := t.jobs.filter (fun j => j.uniqueID != job_uid)
    job_time := t.job_time.filter (fun e => e.jobUniqueID != job_uid)
    materials := t.materials.filter (fun m => m.jobUniqueID != job_uid)
    receipts := t.receipts.filter (fun r => r.jobUniqueID != job_uid)
    down_payments := t.down_payments.filter (fun d => d.jobUniqueID != job_uid)
    job_files := t.job_files.filter (fun f => f.jobUniqueID != job_uid) }

/-! ## Receipt upload (Upload Receipt section, lines 1241-1269)

After the required-field validation passes, the handler calls
`upload_file_to_drive`, which returns a shareable link or `None` on
failure.  Only when a link came back is the new receipt row built and
the receipts table saved; on `None` the handler shows an error and
writes nothing.
-/

/-- Python `str.title`: uppercase a letter that follows a non-letter,
lowercase a letter that follows a letter. -/
def py_title_aux : Bool → List Char → List Char
  | _, [] => []
  | prevAlpha, c :: cs =>
    (if prevAlpha then c.toLower else c.toUpper) :: py_title_aux c.isAlpha cs

/-- Python `str.title` on a string. -/
def py_title (s : String) : String :=
  String.mk (py_title_aux false s.data)

/-- The values collected by the receipt form before submission. -/
structure ReceiptForm where
  contractorName : String
  clientName : String
  jobName : String
  payor : String
  amount : ℚ
  fileName : String
  uploadDate : String
  newUniqueID : String
  jobUniqueID : String
  deriving Repr, DecidableEq

/-- `new_receipt_record`: the row appended on success; `File Path`
holds the link returned by the upload. -/
def mk_receipt_record (f : ReceiptForm) (link : String) : Receipt :=
  { contractorName := py_title (py_strip f.contractorName)
    clientName := py_strip f.clientName
    jobName := py_strip f.jobName
    payor := py_strip f.payor
    amount := f.amount
    fileName := f.fileName
    filePath := link
    uploadDate := f.uploadDate
    uniqueID := f.newUniqueID
    jobUniqueID := f.jobUniqueID }

/-- The post-validation part of the submit handler: `uploadResult` is
the value returned by `upload_file_to_drive` (`none` models the
`None` returned on failure). -/
def submit_receipt (uploadResult : Option String) (receipts : List Receipt)
    (f : ReceiptForm) : List Receipt :=
  match uploadResult with
  | some link => receipts ++ [mk_receipt_record f link]
  | none => receipts

/-! ## Time entry creation (Job Time Tracking section, lines 1069-1093) -/

/-- The values collected by the new-time-entry form.  `startMin` and
`endMin` are the selected clock times in minutes since midnight. -/
structure TimeEntryForm where
  contractor : String
  client : String
  job : String
  date : String
  startMin : Nat
  endMin : Nat
  newUniqueID : String
  jobUniqueID : String
  deriving Repr, DecidableEq

/-- The required-field check of the handler (the date and time widgets
always hold a value, so only the string fields can fail). -/
def time_entry_fields_ok (f : TimeEntryForm) : Bool :=
  f.contractor != "" && f.job != "Select Job" && f.client != "" &&
  f.jobUniqueID != "ERROR_NO_UID"

/-- `duration_jtt`: `(combine(date, end) - combine(date, start)).total_seconds() / 3600`
with both times on the same date, so the difference in seconds is the
minute difference times 60. -/
def duration_jtt (startMin endMin : Nat) : ℚ :=
  ((endMin : ℚ) - (startMin : ℚ)) * 60 / 3600

/-- `new_entry_record_jtt`: the row appended for an accepted entry. -/
def mk_time_entry (f : TimeEntryForm) : TimeEntry :=
  { contractor := f.contractor
    client := f.client
    job := f.job
    date := f.date
    startTime := f.startMin
    endTime := f.endMin
    timeDurationHours := duration_jtt f.startMin f.endMin
    uniqueID := f.newUniqueID
    jobUniqueID := f.jobUniqueID }

/-- The submit handler: missing fields reject, then
`end_time <= start_time` rejects, otherwise the new row is appended
and saved. -/
def submit_time_entry (f : TimeEntryForm) (job_time : List TimeEntry) :
    List TimeEntry :=
  if time_entry_fields_ok f = false then job_time
  else if f.endMin ≤ f.startMin then job_time
  else job_time ++ [mk_time_entry f]

/-! ## Invoice line items and totals (Invoice Generation section)

Session state keeps `invoice_line_items`; auto items are rebuilt on
every render from the toggles and the tables, the manual items of the
session are kept, and an empty combined list is replaced by one blank
manual item (lines 410-411 and 1590-1594).  The totals at lines
1643-1645 sum over the whole session list.
-/

/-- The blank manual item installed whenever the session list would be
empty. -/
def blank_manual_item : LineItem :=
  { desc := "", quantity := 1, unit_price := 0, total := 0, src := "manual" }

/-- The guard at lines 410-411 and 1593-1594: an empty list is
replaced by one blank manual item. -/
def ensure_line_items_nonempty (items : List LineItem) : List LineItem :=
  if items.isEmpty then [blank_manual_item] else items

/-- Recombination at lines 1590-1594: freshly generated auto items
first, then the manual items already in the session, then the
emptiness guard. -/
def recombine_line_items (autoItems sessionItems : List LineItem) :
    List LineItem :=
  ensure_line_items_nonempty
    (autoItems ++ sessionItems.filter (fun i => i.src == "manual"))

/-- `final_subtotal_ig` (line 1643): the sum of `total` over ALL items
in the session list. -/
def final_subtotal_ig (items : List LineItem) : ℚ :=
  (items.map (fun i => i.total)).sum

/-- `final_tax_amount_ig` (line 1644). -/
def final_tax_amount_ig (items : List LineItem) (tax_rate : ℚ) : ℚ :=
  final_subtotal_ig items * (tax_rate / 100)

/-- `final_grand_total_ig` (line 1645). -/
def final_grand_total_ig (items : List LineItem) (tax_rate : ℚ) : ℚ :=
  final_subtotal_ig items + final_tax_amount_ig items tax_rate

/-- The subtotal as the spec words it: only items whose whitespace
stripped `description` is non-blank contribute.  Stated for comparison
with `final_subtotal_ig`; the source computes the latter. -/
def subtotal_spec (items : List LineItem) : ℚ :=
  ((items.filter (fun i => !(py_strip i.desc == ""))).map (fun i => i.total)).sum

/-- `pdf_line_data` (line 1663): the rows put in the PDF table keep
only items with a non-blank stripped `description`. -/
def pdf_line_data (items : List LineItem) : List LineItem :=
  items.filter (fun i => !(py_strip i.desc == ""))

/-- Whether every line item has a blank (whitespace only)
`description`. -/
def all_descriptions_blank (items : List LineItem) : Bool :=
  items.all (fun i => py_strip i.desc == "")

/-- The state the generate-button handler reads:
`selected_job_data_for_doc_ig` (set only when a client and one of its
jobs were picked) and the session line-item list. -/
structure InvoiceGenState where
  selected_job_data : Option Job
  invoice_line_items : List LineItem
  deriving Repr, DecidableEq

/-- The only refusal in the generate handler (lines 1652-1654):
generation stops exactly when `selected_job_data_for_doc_ig is None`;
no other check is made before the PDF is produced and, on a successful
upload, the document row is appended. -/
def ig_generation_refused (s : InvoiceGenState) : Bool :=
  s.selected_job_data.isNone

/-- Down-payment auto item (lines 1582-1586): quantity 1.0, unit price
and total both the negated amount, description holding the date and
the first eight characters of the record id. -/
def down_payment_item (dp : DownPayment) : LineItem :=
  { desc := "Down Payment (" ++ dp.dateReceived ++ ", Ref: " ++
      dp.downPaymentID.take 8 ++ ")"
    quantity := 1
    unit_price := -dp.amount
    total := -dp.amount
    src := "auto" }

/-- All down-payment items generated for the selected job: one item
per `down_payments` row with a matching `JobUniqueID`. -/
def down_payment_items_for (job_uid : String)
    (down_payments : List DownPayment) : List LineItem :=
  (down_payments.filter (fun d => d.jobUniqueID == job_uid)).map
    down_payment_item

/-! ## Document numbering (Invoice Generation section, lines 1516-1526)

`last_num` starts at 499; for the selected type, when the loaded
table is non-empty and has a `DocNumber` column, the prefix is removed
from every document number, the numeric survivors of
`pd.to_numeric(..., errors='coerce')` are kept, and their maximum (if
any) replaces 499.  The proposed number is `int(last_num) + 1`.

Line 425 loads `estimates_df = load_data('job_files')`: the estimates
frame is read from the `job_files` worksheet, although generated
estimates are appended to the `estimates` worksheet (line 1682).
`load_data` restricts a frame to the expected columns of the
worksheet it was asked for, so the loaded `estimates_df` has the
`job_files` columns and no `DocNumber` column.
-/

/-- A loaded documents frame: its columns, its row count, and the
values of its `DocNumber` column when that column exists. -/
structure LoadedDocTable where
  columns : List String
  numRows : Nat
  docNumbers : List String
  deriving Repr, DecidableEq

/-- Expected columns of the `job_files` worksheet in `load_data`. -/
def job_files_expected_columns : List String :=
  ["FileID", "JobUniqueID", "FileName", "RelativePath", "Category",
   "UploadDate", "UploadedByUsername"]

/-- Expected columns of the `estimates` worksheet in `load_data`. -/
def estimates_expected_columns : List String :=
  ["DocNumber", "JobUniqueID", "DateGenerated"]

/-- The `estimates_df` actually loaded at line 425: the `job_files`
worksheet with however many rows it has, restricted to the
`job_files` columns, hence without a `DocNumber` column. -/
def estimates_df_as_loaded (jobFilesRows : Nat) : LoadedDocTable :=
  { columns := job_files_expected_columns
    numRows := jobFilesRows
    docNumbers := [] }

/-- One document number parsed: remove every occurrence of the prefix
(Python `str.replace`), then read the rest as an integer;
`pd.to_numeric(..., errors='coerce')` turns non-numeric strings into
dropped NaN, modelled by `none` (issued numbers are integers). -/
def doc_number_suffix (pfx s : String) : Option Int :=
  str_to_int (py_replace s pfx "")

/-- Maximum of a list of integers, `none` when empty. -/
def max_int_list : List Int → Option Int
  | [] => none
  | h :: t => some (t.foldl max h)

/-- `last_num` at lines 1517-1523. -/
def last_num (doc_type : String) (estimates invoices : LoadedDocTable) :
    Int :=
  if doc_type = "Estimate" ∧ estimates.numRows ≠ 0 ∧
      "DocNumber" ∈ estimates.columns then
    match max_int_list (estimates.docNumbers.filterMap
        (doc_number_suffix "EST-")) with
    | some m => m
    | none => 499
  else if doc_type = "Invoice" ∧ invoices.numRows ≠ 0 ∧
      "DocNumber" ∈ invoices.columns then
    match max_int_list (invoices.docNumbers.filterMap
        (doc_number_suffix "INV-")) with
    | some m => m
    | none => 499
  else 499

/-- `next_doc_num = int(last_num) + 1` (line 1525). -/
def next_doc_num (doc_type : String) (estimates invoices : LoadedDocTable) :
    Int :=
  last_num doc_type estimates invoices + 1

/-- The numbering rule as the spec words it: maximum numeric suffix of
the existing numbers of the type plus one, seed 500 when no prior
numbers parse.  Stated for comparison with `next_doc_num`. -/
def next_doc_num_spec (pfx : String) (existing : List String) : Int :=
  match max_int_list (existing.filterMap (doc_number_suffix pfx)) with
  | some m => m + 1
  | none => 500

/-! ## Helper lemmas -/

/-- Summing a mapped filter equals summing a pointwise conditional. -/
lemma sum_map_filter_eq_sum_ite {α : Type} (p : α → Bool) (g : α → ℚ)
    (l : List α) :
    ((l.filter p).map g).sum
      = (l.map (fun a => if p a then g a else 0)).sum := by
  induction l with
  | nil => simp
  | cons a t ih =>
    by_cases h : p a <;> simp [List.filter_cons, h, ih]

/-- Appending a job that is not in progress leaves the WIP subset
unchanged. -/
lemma df_wip_kpis_append_not_in_progress (jobs : List Job) (J : Job)
    (h : J.status ≠ "In Progress") :
    df_wip_kpis (jobs ++ [J]) = df_wip_kpis jobs := by
  unfold df_wip_kpis
  rw [List.filter_append]
  simp [List.filter_cons, h]

/-- Appending a job that is not in progress leaves the WIP id list
unchanged. -/
lemma wip_job_uids_kpi_append_not_in_progress (jobs : List Job) (J : Job)
    (h : J.status ≠ "In Progress") :
    wip_job_uids_kpi (jobs ++ [J]) = wip_job_uids_kpi jobs := by
  unfold wip_job_uids_kpi
  rw [df_wip_kpis_append_not_in_progress jobs J h]

/-! ## C4: per-job actuals -/

/-- C4.  For every job identifier and tables of time entries,
materials and receipts, the computed actual hours equal the sum of
durations over the time entries whose job identifier equals the given
one, the computed actual material cost equals the matching material
amounts plus the matching receipt amounts, and with no matching
materials or receipts the cost is zero. -/
theorem C4_compute_job_actuals (uid : String) (job_time : List TimeEntry)
    (materials : List MaterialUsage) (receipts : List Receipt) :
    actual_hours_for uid job_time
        = (job_time.map
            (fun e => if e.jobUniqueID = uid then e.timeDurationHours else 0)).sum ∧
    actual_material_cost_for uid materials receipts
        = ((materials.filter (fun m => m.jobUniqueID == uid)).map
            (fun m => m.amount)).sum
          + ((receipts.filter (fun r => r.jobUniqueID == uid)).map
            (fun r => r.amount)).sum ∧
    ((∀ m ∈ materials, m.jobUniqueID ≠ uid) →
      (∀ r ∈ receipts, r.jobUniqueID ≠ uid) →
      actual_material_cost_for uid materials receipts = 0) := by
  refine ⟨?_, rfl, ?_⟩
  · unfold actual_hours_for
    rw [sum_map_filter_eq_sum_ite]
    simp
  · intro hm hr
    unfold actual_material_cost_for
    have hm' : materials.filter (fun m => m.jobUniqueID == uid) = [] := by
      rw [List.filter_eq_nil_iff]
      intro m hmem
      simpa using hm m hmem
    have hr' : receipts.filter (fun r => r.jobUniqueID == uid) = [] := by
      rw [List.filter_eq_nil_iff]
      intro r hmem
      simpa using hr r hmem
    rw [hm', hr']
    simp

/-- Concrete material row used in the C4 witness. -/
def c4_material : MaterialUsage :=
  { material := "Lumber", contractor := "Alice Smith", client := "Acme"
    job := "Deck", dateUsed := "2024-05-01", amount := 120, payor := "Alice"
    uniqueID := "m1", jobUniqueID := "job-other" }

/-- Concrete time entry used in the C4 witness. -/
def c4_entry : TimeEntry :=
  { contractor := "Alice Smith", client := "Acme", job := "Deck"
    date := "2024-05-01", startTime := 540, endTime := 1020
    timeDurationHours := 8, uniqueID := "t1", jobUniqueID := "job-1" }

/-- Witness for C4 at a concrete input: one matching time entry, one
material row for a different job, no receipts. -/
theorem C4_compute_job_actuals_witness :
    (∀ m ∈ [c4_material], m.jobUniqueID ≠ "job-1") ∧
    (∀ r ∈ ([] : List Receipt), r.jobUniqueID ≠ "job-1") ∧
    actual_hours_for "job-1" [c4_entry]
        = ([c4_entry].map
            (fun e => if e.jobUniqueID = "job-1" then e.timeDurationHours else 0)).sum ∧
    actual_material_cost_for "job-1" [c4_material] [] = 0 := by
  have h := C4_compute_job_actuals "job-1" [c4_entry] [c4_material] []
  refine ⟨by decide, by simp, h.1, h.2.2 (by decide) (by simp)⟩

/-! ## C5: WIP sums ignore jobs that are not in progress -/

/-- C5.  A job whose status is not `In Progress` contributes zero to
every WIP sum: appending such a job to the jobs table leaves the five
WIP KPI values unchanged. -/
theorem C5_wip_totals_only_in_progress (jobs : List Job) (J : Job)
    (job_time : List TimeEntry) (materials : List MaterialUsage)
    (receipts : List Receipt) (down_payments : List DownPayment)
    (h : J.status ≠ "In Progress") :
    est_hours_wip_kpi (jobs ++ [J]) = est_hours_wip_kpi jobs ∧
    est_materials_wip_kpi (jobs ++ [J]) = est_materials_wip_kpi jobs ∧
    actual_hours_wip_kpi (jobs ++ [J]) job_time
        = actual_hours_wip_kpi jobs job_time ∧
    total_actual_materials_wip_kpi (jobs ++ [J]) materials receipts
        = total_actual_materials_wip_kpi jobs materials receipts ∧
    total_down_payments_wip_kpi (jobs ++ [J]) down_payments
        = total_down_payments_wip_kpi jobs down_payments := by
  have hdf := df_wip_kpis_append_not_in_progress jobs J h
  have huid := wip_job_uids_kpi_append_not_in_progress jobs J h
  refine ⟨?_, ?_, ?_, ?_, ?_⟩
  · unfold est_hours_wip_kpi; rw [hdf]
  · unfold est_materials_wip_kpi; rw [hdf]
  · unfold actual_hours_wip_kpi; rw [huid]
  · unfold total_actual_materials_wip_kpi; rw [huid]
  · unfold total_down_payments_wip_kpi; rw [huid]

/-- Concrete in-progress job used in the C5 witness. -/
def c5_wip_job : Job :=
  { jobName := "Deck", client := "Acme", status := "In Progress"
    startDate := "2024-04-01", endDate := "", jobDesc := ""
    estimatedHours := 10, estimatedMaterialsCost := 500
    uniqueID := "job-1" }

/-- Concrete completed job used in the C5 witness. -/
def c5_done_job : Job :=
  { jobName := "Fence", client := "Acme", status := "Completed"
    startDate := "2024-01-01", endDate := "2024-02-01", jobDesc := ""
    estimatedHours := 40, estimatedMaterialsCost := 900
    uniqueID := "job-2" }

/-- Witness for C5 at a concrete input: one WIP job plus one completed
job, with one time entry. -/
theorem C5_wip_totals_only_in_progress_witness :
    c5_done_job.status ≠ "In Progress" ∧
    est_hours_wip_kpi ([c5_wip_job] ++ [c5_done_job])
        = est_hours_wip_kpi [c5_wip_job] ∧
    actual_hours_wip_kpi ([c5_wip_job] ++ [c5_done_job]) [c4_entry]
        = actual_hours_wip_kpi [c5_wip_job] [c4_entry] := by
  have h := C5_wip_totals_only_in_progress [c5_wip_job] c5_done_job
    [c4_entry] [] [] [] (by decide)
  exact ⟨by decide, h.1, h.2.2.1⟩

/-! ## C6: job deletion cascade -/

/-- C6.  Confirming deletion of a job removes every jobs row whose
`UniqueID` equals the deleted id and exactly those child rows (time
entries, materials, receipts, down payments, job files) whose
`JobUniqueID` equals it; every row with a different identifier is
kept. -/
theorem C6_delete_job_cascade (job_uid : String) (t : Tables) :
    (∀ j : Job, j ∈ (delete_job_cascade job_uid t).jobs ↔
      j ∈ t.jobs ∧ j.uniqueID ≠ job_uid) ∧
    (∀ e : TimeEntry, e ∈ (delete_job_cascade job_uid t).job_time ↔
      e ∈ t.job_time ∧ e.jobUniqueID ≠ job_uid) ∧
    (∀ m : MaterialUsage, m ∈ (delete_job_cascade job_uid t).materials ↔
      m ∈ t.materials ∧ m.jobUniqueID ≠ job_uid) ∧
    (∀ r : Receipt, r ∈ (delete_job_cascade job_uid t).receipts ↔
      r ∈ t.receipts ∧ r.jobUniqueID ≠ job_uid) ∧
    (∀ d : DownPayment, d ∈ (delete_job_cascade job_uid t).down_payments ↔
      d ∈ t.down_payments ∧ d.jobUniqueID ≠ job_uid) ∧
    (∀ f : JobFile, f ∈ (delete_job_cascade job_uid t).job_files ↔
      f ∈ t.job_files ∧ f.jobUniqueID ≠ job_uid) := by
  unfold delete_job_cascade
  refine ⟨fun j => ?_, fun e => ?_, fun m => ?_, fun r => ?_,
    fun d => ?_, fun f => ?_⟩ <;>
  · simp [List.mem_filter]

/-! ## C7: receipt persisted only after a successful upload -/

/-- C7.  When the upload fails (`None` returned) no receipt row is
created and the table is unchanged; when the upload returns a link,
exactly one row is appended and it stores that link. -/
theorem C7_receipt_upload_then_record (receipts : List Receipt)
    (f : ReceiptForm) :
    submit_receipt none receipts f = receipts ∧
    ∀ link : String,
      submit_receipt (some link) receipts f
          = receipts ++ [mk_receipt_record f link] ∧
      (mk_receipt_record f link).filePath = link := by
  exact ⟨rfl, fun link => ⟨rfl, rfl⟩⟩

/-! ## C8: time entry validation and duration -/

/-- C8.  With the required fields present, a submission with end time
at or before the start time leaves the table unchanged, and an
accepted submission appends one row whose stored duration is the
minute difference divided by 60 hours and is strictly positive. -/
theorem C8_time_entry_validation (f : TimeEntryForm)
    (job_time : List TimeEntry) (hok : time_entry_fields_ok f = true) :
    (f.endMin ≤ f.startMin → submit_time_entry f job_time = job_time) ∧
    (f.startMin < f.endMin →
      submit_time_entry f job_time = job_time ++ [mk_time_entry f] ∧
      (mk_time_entry f).timeDurationHours
          = ((f.endMin : ℚ) - (f.startMin : ℚ)) / 60 ∧
      0 < (mk_time_entry f).timeDurationHours) := by
  constructor
  · intro hle
    unfold submit_time_entry
    rw [hok]
    simp [hle]
  · intro hlt
    have hnle : ¬ f.endMin ≤ f.startMin := Nat.not_le.mpr hlt
    refine ⟨?_, ?_, ?_⟩
    · unfold submit_time_entry
      rw [hok]
      simp [hnle]
    · show duration_jtt f.startMin f.endMin = _
      unfold duration_jtt
      ring
    · show 0 < duration_jtt f.startMin f.endMin
      unfold duration_jtt
      have hcast : (f.startMin : ℚ) < (f.endMin : ℚ) := by
        exact_mod_cast hlt
      have hpos : 0 < ((f.endMin : ℚ) - (f.startMin : ℚ)) := by linarith
      positivity

/-- Concrete form used in the C8 witness: 09:00 to 17:00. -/
def c8_form : TimeEntryForm :=
  { contractor := "Alice Smith", client := "Acme", job := "Deck"
    date := "2024-05-01", startMin := 540, endMin := 1020
    newUniqueID := "t9", jobUniqueID := "job-1" }

/-- Witness for C8: a 09:00 to 17:00 entry is accepted with a stored
duration of exactly 8.0 hours. -/
theorem C8_time_entry_validation_witness :
    time_entry_fields_ok c8_form = true ∧
    c8_form.startMin < c8_form.endMin ∧
    submit_time_entry c8_form [] = [mk_time_entry c8_form] ∧
    (mk_time_entry c8_form).timeDurationHours = 8 := by
  have h := (C8_time_entry_validation c8_form [] (by decide)).2 (by decide)
  refine ⟨by decide, by decide, by simpa using h.1, ?_⟩
  rw [h.2.1]
  norm_num [c8_form]

/-! ## C2: document totals -/

/-- Splitting a mapped sum along a Boolean predicate. -/
lemma sum_map_eq_filter_add_filter_not {α : Type} (p : α → Bool)
    (g : α → ℚ) (l : List α) :
    (l.map g).sum
      = ((l.filter p).map g).sum
        + ((l.filter (fun a => !(p a))).map g).sum := by
  induction l with
  | nil => simp
  | cons a t ih =>
    by_cases h : p a <;> simp [List.filter_cons, h, ih] <;> ring

/-- Concrete line item with a blank description and a non-zero total,
reachable by typing a quantity and unit price into a manual row while
leaving its description empty. -/
def c2_blank_priced_item : LineItem :=
  { desc := "", quantity := 2, unit_price := 5, total := 10, src := "manual" }

/-- C2 counterexample.  The computed subtotal (line 1643) sums every
item of the session list, so a blank-description item with a non-zero
total contributes, while the claim restricts the subtotal to items
with a non-blank description. -/
theorem C2_subtotal_counterexample :
    final_subtotal_ig [c2_blank_priced_item]
      ≠ subtotal_spec [c2_blank_priced_item] := by
  have h1 : final_subtotal_ig [c2_blank_priced_item] = 10 := by
    simp [final_subtotal_ig, c2_blank_priced_item]
  have h2 : subtotal_spec [c2_blank_priced_item] = 0 := by
    have hb : (!(py_strip c2_blank_priced_item.desc == "")) = false := by
      decide
    simp [subtotal_spec, List.filter_cons, hb]
  rw [h1, h2]
  norm_num

/-- C2 amended.  The computed subtotal is the sum of the totals of ALL
line items: the spec-worded non-blank subtotal plus the totals of the
blank-description items.  Tax amount and grand total follow the claim:
tax = subtotal times (rate / 100) and grand total = subtotal + tax. -/
theorem C2_totals_amended (items : List LineItem) (tax_rate : ℚ) :
    final_subtotal_ig items
        = subtotal_spec items
          + ((items.filter (fun i => py_strip i.desc == "")).map
              (fun i => i.total)).sum ∧
    final_tax_amount_ig items tax_rate
        = final_subtotal_ig items * (tax_rate / 100) ∧
    final_grand_total_ig items tax_rate
        = final_subtotal_ig items + final_tax_amount_ig items tax_rate := by
  refine ⟨?_, rfl, rfl⟩
  unfold final_subtotal_ig subtotal_spec
  rw [sum_map_eq_filter_add_filter_not (fun i => !(py_strip i.desc == ""))
    (fun i => i.total) items]
  simp

/-! ## C3: the generation gate -/

/-- Concrete selected job used in the C3 counterexample. -/
def c3_job : Job :=
  { jobName := "Deck", client := "Acme", status := "In Progress"
    startDate := "2024-04-01", endDate := "", jobDesc := "Build a deck"
    estimatedHours := 10, estimatedMaterialsCost := 500
    uniqueID := "job-1" }

/-- C3 counterexample.  With a job selected and every line item blank,
the generate handler does not refuse: its only check (lines 1652-1654)
is that a job is selected, so the PDF is produced and, after a
successful upload, the document row is appended. -/
theorem C3_generation_refusal_counterexample :
    all_descriptions_blank [blank_manual_item] = true ∧
    ig_generation_refused
        { selected_job_data := some c3_job
          invoice_line_items := [blank_manual_item] } = false := by
  exact ⟨by decide, rfl⟩

/-- C3 amended.  Generation is refused exactly when no job is
selected; all-blank line items do not block generation, they are
merely all dropped from the PDF line-item table. -/
theorem C3_generation_gate_amended (s : InvoiceGenState) :
    (ig_generation_refused s = true ↔ s.selected_job_data = none) ∧
    (all_descriptions_blank s.invoice_line_items = true →
      pdf_line_data s.invoice_line_items = []) := by
  constructor
  · unfold ig_generation_refused
    cases s.selected_job_data <;> simp
  · intro hall
    unfold all_descriptions_blank at hall
    unfold pdf_line_data
    rw [List.filter_eq_nil_iff]
    intro i hi
    have hblank := List.all_eq_true.mp hall i hi
    simp only [hblank, Bool.not_true]
    simp

/-- Witness for C3 amended at a concrete state: one blank item, a job
selected, and an empty PDF line table. -/
theorem C3_generation_gate_amended_witness :
    all_descriptions_blank [blank_manual_item] = true ∧
    pdf_line_data [blank_manual_item] = [] := by
  have h := C3_generation_gate_amended
    { selected_job_data := some c3_job
      invoice_line_items := [blank_manual_item] }
  exact ⟨by decide, h.2 (by decide)⟩

/-! ## C9: down-payment credit items -/

/-- Concrete down payment with a negative stored amount.  The creation
form enforces a positive amount, but `load_data` only coerces the
`Amount` column to numeric (`pd.to_numeric` with `coerce` and
`fillna(0)`, lines 141-147) and never clamps the sign, so a negative
value in the worksheet flows through. -/
def c9_negative_dp : DownPayment :=
  { downPaymentID := "dp-negative-0001", jobUniqueID := "job-1"
    dateReceived := "2024-01-15", amount := -50
    paymentMethod := "Cash", notes := "" }

/-- C9 counterexample.  A down-payment row whose stored amount is
negative produces a line item with a strictly positive total, so the
claim that every down-payment line item carries total at most 0 fails. -/
theorem C9_down_payment_credit_counterexample :
    down_payment_item c9_negative_dp
        ∈ down_payment_items_for "job-1" [c9_negative_dp] ∧
    0 < (down_payment_item c9_negative_dp).total := by
  constructor
  · simp [down_payment_items_for, c9_negative_dp]
  · norm_num [down_payment_item, c9_negative_dp]

/-- C9 amended.  Every generated down-payment item has quantity 1,
unit price the negated amount and total the negated amount; whenever
the stored amount is non-negative (as for every form-created record)
the total is at most 0; and appending a down-payment item nets its
amount off the subtotal. -/
theorem C9_down_payment_item_amended (dp : DownPayment)
    (items : List LineItem) :
    (down_payment_item dp).quantity = 1 ∧
    (down_payment_item dp).unit_price = -dp.amount ∧
    (down_payment_item dp).total = -dp.amount ∧
    (0 ≤ dp.amount → (down_payment_item dp).total ≤ 0) ∧
    final_subtotal_ig (items ++ [down_payment_item dp])
        = final_subtotal_ig items - dp.amount := by
  refine ⟨rfl, rfl, rfl, ?_, ?_⟩
  · intro h
    show -dp.amount ≤ 0
    linarith
  · unfold final_subtotal_ig
    simp [down_payment_item]
    ring

/-- Concrete down payment of 200 used in the C9 witness. -/
def c9_dp_200 : DownPayment :=
  { downPaymentID := "dp-2024-0001", jobUniqueID := "job-1"
    dateReceived := "2024-02-01", amount := 200
    paymentMethod := "Check", notes := "" }

/-- Concrete positive line item of 1000 used in the C9 witness. -/
def c9_item_1000 : LineItem :=
  { desc := "Labor", quantity := 1, unit_price := 1000, total := 1000
    src := "manual" }

/-- Witness for C9 amended: a 1000 item plus a 200 down payment gives
a 800 subtotal, and the credit item total is at most 0. -/
theorem C9_down_payment_item_amended_witness :
    (0 : ℚ) ≤ c9_dp_200.amount ∧
    (down_payment_item c9_dp_200).total ≤ 0 ∧
    final_subtotal_ig ([c9_item_1000] ++ [down_payment_item c9_dp_200])
        = 800 := by
  have h := C9_down_payment_item_amended c9_dp_200 [c9_item_1000]
  refine ⟨by norm_num [c9_dp_200], h.2.2.2.1 (by norm_num [c9_dp_200]), ?_⟩
  rw [h.2.2.2.2]
  norm_num [final_subtotal_ig, c9_item_1000, c9_dp_200]

/-! ## C10: the session line-item list is never empty -/

/-- C10.  The session list is never empty: the initialization guard
and the recombination of auto and manual items both replace an empty
result with one blank manual item. -/
theorem C10_invoice_line_items_never_empty :
    (∀ autoItems sessionItems : List LineItem,
      recombine_line_items autoItems sessionItems ≠ []) ∧
    (∀ items : List LineItem, ensure_line_items_nonempty items ≠ []) ∧
    ensure_line_items_nonempty [] = [blank_manual_item] ∧
    recombine_line_items [] [] = [blank_manual_item] := by
  have key : ∀ items : List LineItem, ensure_line_items_nonempty items ≠ [] := by
    intro items
    unfold ensure_line_items_nonempty
    by_cases h : items.isEmpty
    · simp [h]
    · rw [if_neg (by simpa using h)]
      simpa [List.isEmpty_iff] using h
  exact ⟨fun a s => key _, key, rfl, rfl⟩

/-! ## C1: document numbering -/

/-- Expected columns of the `invoices` worksheet in `load_data`. -/
def invoices_expected_columns : List String :=
  ["DocNumber", "JobUniqueID", "DateGenerated"]

/-- The estimates worksheet rows used in the C1 failing input. -/
def c1_estimates_table : LoadedDocTable :=
  { columns := estimates_expected_columns
    numRows := 3
    docNumbers := ["EST-500", "EST-503", "EST-501"] }

/-- C1.  The estimate numbering never sees prior estimates: line 425
loads `estimates_df` from the `job_files` worksheet, whose columns
lack `DocNumber`, so the proposal is always `EST-500` (first
conjunct), although the same algorithm fed the `estimates` worksheet
rows `EST-500`, `EST-503`, `EST-501` proposes 504 (second conjunct),
as the claim requires (third conjunct).  The invoice side, which loads
the right worksheet, agrees with the claimed rule on every row list
(fourth conjunct). -/
theorem C1_next_doc_num_reads_wrong_estimates_table (n : Nat)
    (invoices : LoadedDocTable) :
    next_doc_num "Estimate" (estimates_df_as_loaded n) invoices = 500 ∧
    next_doc_num "Estimate" c1_estimates_table invoices = 504 ∧
    next_doc_num_spec "EST-" ["EST-500", "EST-503", "EST-501"] = 504 ∧
    (∀ est : LoadedDocTable, ∀ nums : List String,
      next_doc_num "Invoice" est
          { columns := invoices_expected_columns, numRows := nums.length, docNumbers := nums }
        = next_doc_num_spec "INV-" nums) := by
  refine ⟨?_, ?_, by decide, ?_⟩
  · have hmem : "DocNumber" ∉ (estimates_df_as_loaded n).columns := by
      show "DocNumber" ∉ job_files_expected_columns
      decide
    have h1 : ¬ ("Estimate" = "Estimate" ∧
        (estimates_df_as_loaded n).numRows ≠ 0 ∧
        "DocNumber" ∈ (estimates_df_as_loaded n).columns) :=
      fun h => hmem h.2.2
    have h2 : ¬ ("Estimate" = "Invoice" ∧ invoices.numRows ≠ 0 ∧
        "DocNumber" ∈ invoices.columns) :=
      fun h => absurd h.1 (by decide)
    unfold next_doc_num last_num
    rw [if_neg h1, if_neg h2]
    norm_num
  · have h2 : ("Estimate" = "Estimate" ∧ c1_estimates_table.numRows ≠ 0 ∧
        "DocNumber" ∈ c1_estimates_table.columns) := by
      refine ⟨rfl, ?_, ?_⟩
      · show (3 : Nat) ≠ 0
        decide
      · show "DocNumber" ∈ estimates_expected_columns
        decide
    unfold next_doc_num last_num
    rw [if_pos h2]
    decide
  · intro est nums
    have h1 : ¬ ("Invoice" = "Estimate" ∧ est.numRows ≠ 0 ∧
        "DocNumber" ∈ est.columns) :=
      fun h => absurd h.1 (by decide)
    by_cases hn : nums = []
    · subst hn
      have h2 : ¬ ("Invoice" = "Invoice" ∧
          ({ columns := invoices_expected_columns, numRows := ([] : List String).length, docNumbers := ([] : List String) } :
            LoadedDocTable).numRows ≠ 0 ∧
          "DocNumber" ∈ ({ columns := invoices_expected_columns, numRows := ([] : List String).length, docNumbers := ([] : List String) } :
            LoadedDocTable).columns) :=
        fun h => h.2.1 rfl
      unfold next_doc_num last_num next_doc_num_spec
      rw [if_neg h1, if_neg h2]
      decide
    · have h2 : ("Invoice" = "Invoice" ∧
          ({ columns := invoices_expected_columns, numRows := nums.length, docNumbers := nums } :
            LoadedDocTable).numRows ≠ 0 ∧
          "DocNumber" ∈ ({ columns := invoices_expected_columns, numRows := nums.length, docNumbers := nums } :
            LoadedDocTable).columns) := by
        refine ⟨rfl, ?_, ?_⟩
        · show nums.length ≠ 0
          exact fun h0 => hn (List.length_eq_zero.mp h0)
        · show "DocNumber" ∈ invoices_expected_columns
          decide
      unfold next_doc_num last_num next_doc_num_spec
      rw [if_neg h1, if_pos h2]
      cases hmax :
          max_int_list (List.filterMap (doc_number_suffix "INV-") nums) <;>
        simp [hmax]

end JaacksApp
